import Mathlib

/-!
Verification of the BarBot chat bot (src/bot.py) against its specification.

The bot's core is the class Bar_Bot_Handler with three pieces of logic:
its location branch of on_chat_message (the Location Handler), its text
branch (the Command Handler) and on_callback_query (the Selection Handler),
plus the per-chat session attributes _first_time, _list_of_bars, _map_url
and _inline_bar_selection_keyboard.

External collaborators (the Telegram transport, the Yelp search client, the
motionless static-map URL library and the emoji substitution library) are
out of scope per the spec; outbound sends are modelled as a list of `Send`
actions and the search result is a parameter of the location handler.
Emoji substitution is the identity in this model: messages are reasoned
about in their pre-substitution form, with `:star:` and `:telephone:`
tokens left in place.

Python-level behaviour that the handlers rely on is modelled explicitly:
`pythonInt` models `int(str)` (decimal literals with an optional sign and
surrounding whitespace; underscore separators and non-ASCII digits of the
full CPython grammar are outside the inputs this program meets),
`pyIndex` models list subscription including negative indices,
`pyStrip`/`pyLower` model `str.strip()`/`str.lower()` for ASCII text, and
uninitialised instance attributes are `Option` fields that raise
`PyError.attributeError` when read while `none`.
-/

/-- Coordinates of a venue, the `coordinates` dict of a Yelp business. -/
structure Coordinates where
  latitude : ℚ
  longitude : ℚ
deriving DecidableEq

/-- The `Bar` namedtuple of bot.py, fields in source order. -/
structure Bar where
  name : String
  coordinates : Coordinates
  display_phone : String
  display_address : String
  rating : ℚ
deriving DecidableEq

/-- An `InlineKeyboardButton` with the two fields bot.py sets. -/
structure InlineButton where
  text : String
  callback_data : String
deriving DecidableEq

/-- A `KeyboardButton` with the two fields bot.py sets. -/
structure KeyboardButton where
  text : String
  request_location : Bool
deriving DecidableEq

/-- A `reply_markup` attachment: either a reply keyboard or an inline
keyboard, each a list of button rows. -/
inductive ReplyMarkup where
  | reply (rows : List (List KeyboardButton))
  | inline (rows : List (List InlineButton))
deriving DecidableEq

/-- A marker of the static map, the `LatLonMarker` of create_map. -/
structure MapMarker where
  lat : ℚ
  lon : ℚ
  label : String
deriving DecidableEq

/-- An outbound send performed (awaited) on the Telegram sender. -/
inductive Send where
  | photo (url : String)
  | message (text : String) (markup : Option ReplyMarkup)
  | markdownMessage (text : String)
  | location (latitude longitude : ℚ)
deriving DecidableEq

/-- A Python exception that a handler can raise. -/
inductive PyError where
  | attributeError
  | valueError
  | indexError
deriving DecidableEq

/-- Per-chat session state: the four instance attributes that
Bar_Bot_Handler reads and writes.  `none` models an attribute that has
never been assigned (reading it raises AttributeError); the constructor
of Bar_Bot_Handler assigns none of them. -/
structure SessionState where
  first_time : Option Bool
  list_of_bars : Option (List Bar)
  map_url : Option String
  inline_bar_selection_keyboard : Option (List (List InlineButton))
deriving DecidableEq

/-- The state of a freshly opened chat session: Bar_Bot_Handler.__init__
only calls the superclass constructor and initialises no attribute. -/
def initial_state : SessionState := ⟨none, none, none, none⟩

/-- The WELCOME_MESSAGE constant of bot.py (before emoji substitution). -/
def WELCOME_MESSAGE : String :=
  "Welcome to BarBot :wine_glass:. Find any bars nearby."

/-- The HELP_MESSAGE constant of bot.py. -/
def HELP_MESSAGE : String :=
  "Click button to find bars near your location. A map with all bars near your location is shown. Click in the inline buttons to get more information about the bar"

/-- The menu prompt sent by the location branch of on_chat_message. -/
def SELECT_OPTION_MESSAGE : String :=
  "Select one option to get more information of the bar."

/-- The menu prompt re-sent by on_callback_query. -/
def SELECT_A_BAR_MESSAGE : String := "Select a bar"

/-- The `main_keyboard` class attribute: one row with one
location-requesting button. -/
def main_keyboard : ReplyMarkup :=
  ReplyMarkup.reply [[⟨"Bars near my location", true⟩]]

/-- Decimal digit characters: models the characters str(int) emits. -/
def natDigitChar (d : ℕ) : Char := Char.ofNat (48 + d)

/-- Base-10 digits of `n`, least significant first, computed with explicit
fuel so that it is structurally recursive. -/
def natDigitsAux : ℕ → ℕ → List ℕ
  | 0, _ => []
  | fuel + 1, n => if n = 0 then [] else n % 10 :: natDigitsAux fuel (n / 10)

/-- Base-10 digits of `n`, least significant first. -/
def natDigits (n : ℕ) : List ℕ := natDigitsAux n n

/-- Models Python str(n) (equivalently "%d" % n) for a natural number. -/
def natToString (n : ℕ) : String :=
  if n = 0 then "0" else String.mk ((natDigits n).reverse.map natDigitChar)

/-- Models Python str(z) for an integer. -/
def intToString (z : ℤ) : String :=
  (if z < 0 then "-" else "") ++ natToString z.natAbs

/-- A readable rendering of a rational, used only inside the modelled map
URL (the real URL text is produced by the external motionless library). -/
def ratToString (q : ℚ) : String := intToString q.num ++ "/" ++ natToString q.den

/-- The rating formatting of on_chat_message lines 157-160:
`"%d" % rating` when `rating.is_integer()` (a rational is integral exactly
when its reduced denominator is 1), else `"%1.1f" % rating` (one digit
after the decimal point, the value rounded to tenths). Modelled for the
nonnegative ratings the Yelp API returns; the rounded tenths value
`n = round(r * 10)` is computed as `⌊(20 num + den) / (2 den)⌋` in integer
arithmetic. -/
def format_rating (r : ℚ) : String :=
  if r.den = 1 then natToString r.num.toNat
  else
    let n : ℕ := ((20 * r.num + (r.den : ℤ)) / (2 * (r.den : ℤ))).toNat
    natToString (n / 10) ++ "." ++ String.mk [natDigitChar (n % 10)]

/-- The text of one menu entry: `"{i}. {name}. :star: {rating}"` before
emoji substitution, `i` the 1-based position. -/
def bar_text (i : ℕ) (b : Bar) : String :=
  natToString i ++ ". " ++ b.name ++ ". :star: " ++ format_rating b.rating

/-- The enumerate loop of the location branch (lines 153-182): one pass
over the bars, building in step `i` a one-button keyboard row whose
callback data is `'bar_%s' % i` and a map marker at the bar's
coordinates.  `i` is the enumerate counter, starting at 1 at the call
site. -/
def build_menu : ℕ → List Bar → List (List InlineButton) × List Coordinates
  | _, [] => ([], [])
  | i, b :: rest =>
    ([⟨bar_text i b, "bar_" ++ natToString i⟩] :: (build_menu (i + 1) rest).1,
     b.coordinates :: (build_menu (i + 1) rest).2)

/-- The marker loop of create_map (lines 112-119): `LatLonMarker`s at the
given coordinates, labelled `str(index)` with 1-based enumeration.  `i`
is the enumerate counter. -/
def create_map_markers_aux : ℕ → List Coordinates → List MapMarker
  | _, [] => []
  | i, m :: rest =>
    ⟨m.latitude, m.longitude, natToString i⟩ :: create_map_markers_aux (i + 1) rest

/-- The markers create_map adds to the DecoratedMap, enumerated from 1. -/
def create_map_markers (markers : List Coordinates) : List MapMarker :=
  create_map_markers_aux 1 markers

/-- Rendering of a marker inside the modelled map URL. -/
def markersToString : List MapMarker → String
  | [] => ""
  | m :: rest =>
    ratToString m.lat ++ "," ++ ratToString m.lon ++ "," ++ m.label ++ ";" ++
      markersToString rest

/-- create_map (lines 90-122): a static-map URL centred at the given
point, zoom 15, size 400x400, roadmap, with the labelled markers.  The
URL text itself is produced by the external motionless library; it is
modelled as an encoding that records the same inputs. -/
def create_map (center_lat center_lon : ℚ) (markers : List Coordinates) : String :=
  "https://maps.google.com/maps/api/staticmap?center=" ++ ratToString center_lat ++
    "," ++ ratToString center_lon ++ "&zoom=15&size=400x400&maptype=roadmap&markers=" ++
    markersToString (create_map_markers markers)

/-- Characters str.strip() removes, restricted to ASCII whitespace. -/
def pySpace (c : Char) : Bool :=
  (c == ' ') || (c == '\t') || (c == '\n') || (c == '\r') ||
    (c == '\x0b') || (c == '\x0c')

/-- Models Python str.strip() for ASCII text. -/
def pyStrip (s : String) : String :=
  String.mk (((s.data.dropWhile pySpace).reverse.dropWhile pySpace).reverse)

/-- Models Python str.lower() for ASCII text. -/
def pyLower (s : String) : String := String.mk (s.data.map Char.toLower)

/-- The normalisation on_chat_message applies to text input (line 200):
`msg["text"].strip().lower()`. -/
def pyNormalize (s : String) : String := pyLower (pyStrip s)

/-- Models Python str.startswith: the first len(p) characters equal p. -/
def pyStartswith (s p : String) : Bool := s.data.take p.data.length == p.data

/-- Numeric value of a list of decimal digit characters, most significant
first. -/
def digitsVal (l : List Char) : ℕ :=
  l.foldl (fun a c => 10 * a + (c.toNat - 48)) 0

/-- Models Python int(str): strips whitespace, accepts an optional sign
followed by a nonempty run of decimal digits, raises ValueError (here:
`none`) otherwise.  Underscore separators and non-ASCII digits of the
full CPython grammar never occur in this program's inputs and are not
modelled. -/
def pythonInt (s : String) : Option ℤ :=
  match (pyStrip s).data with
  | '-' :: rest =>
    if rest ≠ [] ∧ rest.all Char.isDigit then some (-(digitsVal rest : ℤ)) else none
  | '+' :: rest =>
    if rest ≠ [] ∧ rest.all Char.isDigit then some (digitsVal rest : ℤ) else none
  | l => if l ≠ [] ∧ l.all Char.isDigit then some (digitsVal l : ℤ) else none

/-- Models Python list subscription `l[i]` with an int index: a negative
index counts from the end; `none` models IndexError. -/
def pyIndex {α : Type} (l : List α) (i : ℤ) : Option α :=
  let j : ℤ := if i < 0 then i + l.length else i
  if 0 ≤ j then l.get? j.toNat else none

/-- The detail message of on_callback_query lines 240-247 (before emoji
substitution): the bar name emphasised with asterisks, then a telephone
line exactly when the display phone is truthy (non-empty), then the
display address on a new line exactly when it is truthy. -/
def build_extra_info (b : Bar) : String :=
  let base := "*" ++ b.name ++ "*"
  let withPhone :=
    if b.display_phone ≠ "" then
      base ++ "\n:telephone: " ++ b.display_phone ++ "\n"
    else base
  if b.display_address ≠ "" then withPhone ++ "\n" ++ b.display_address
  else withPhone

/-- The sends of the tail of on_callback_query: the detail message with
Markdown parse mode, then the bar's location pin.  The guard
`if bar.coordinates:` of line 259 tests the truthiness of the Yelp
coordinates dict, which always holds the latitude and longitude keys and
is therefore truthy; the pin is always sent in this model. -/
def detail_sends (b : Bar) : List Send :=
  [Send.markdownMessage (build_extra_info b),
   Send.location b.coordinates.latitude b.coordinates.longitude]

/-- The map and menu re-sent by on_callback_query lines 227-233 when the
first-view flag is false. -/
def resend_sends (url : String) (kb : List (List InlineButton)) : List Send :=
  [Send.photo url, Send.message SELECT_A_BAR_MESSAGE (some (ReplyMarkup.inline kb))]

/-- The location branch of on_chat_message (lines 139-197).  The Yelp
search is external: its result `bars` is a parameter.  The handler
replaces all four session attributes (previous state `_s` is discarded),
sends the map photo and then the menu prompt with the inline keyboard,
and sets the first-view flag last. -/
def on_location (_s : SessionState) (bars : List Bar) (lat lon : ℚ) :
    SessionState × List Send :=
  let kb := (build_menu 1 bars).1
  let url := create_map lat lon (build_menu 1 bars).2
  (⟨some true, some bars, some url, some kb⟩,
   [Send.photo url, Send.message SELECT_OPTION_MESSAGE (some (ReplyMarkup.inline kb))])

/-- The text branch of on_chat_message (lines 199-211).  The input is
stripped and lowercased; "/start" sends the welcome message with the main
keyboard attached.  The "/help" branch calls sendMessage WITHOUT await
(line 210): the coroutine object is created and discarded, never
scheduled, so no message is dispatched — modelled as an empty send list.
Any other text falls through with no send.  No session attribute is
touched in any branch. -/
def on_text (s : SessionState) (text : String) : SessionState × List Send :=
  let t := pyNormalize text
  if t = "/start" then
    (s, [Send.message WELCOME_MESSAGE (some main_keyboard)])
  else if t = "/help" then (s, [])
  else (s, [])

/-- on_callback_query (lines 213-263).  Returns the final state, the
sends performed before any exception, and the exception if one was
raised.  Control flow follows the source: the `bar_` test first; then the
read of `_first_time` (AttributeError when never assigned); when the flag
is false, the map photo and menu re-send, reading `_map_url` and
`_inline_bar_selection_keyboard`; then `int(query_data[4:]) - 1`
(ValueError on a malformed suffix); then `self._list_of_bars[bar_index]`
(IndexError out of range, with Python's negative indexing); then the
detail message and the location pin. -/
def on_callback_query (s : SessionState) (query_data : String) :
    SessionState × List Send × Option PyError :=
  if pyStartswith query_data "bar_" then
    match s.first_time with
    | none => (s, [], some PyError.attributeError)
    | some ft =>
      let step1 : SessionState × List Send × Option PyError :=
        if ft then
          (⟨some false, s.list_of_bars, s.map_url, s.inline_bar_selection_keyboard⟩,
           [], none)
        else
          match s.map_url with
          | none => (s, [], some PyError.attributeError)
          | some url =>
            match s.inline_bar_selection_keyboard with
            | none => (s, [Send.photo url], some PyError.attributeError)
            | some kb => (s, resend_sends url kb, none)
      match step1 with
      | (s1, sends1, some e) => (s1, sends1, some e)
      | (s1, sends1, none) =>
        match pythonInt (String.mk (query_data.data.drop 4)) with
        | none => (s1, sends1, some PyError.valueError)
        | some n =>
          match s1.list_of_bars with
          | none => (s1, sends1, some PyError.attributeError)
          | some bars =>
            match pyIndex bars (n - 1) with
            | none => (s1, sends1, some PyError.indexError)
            | some bar => (s1, sends1 ++ detail_sends bar, none)
  else (s, [], none)

/-! ## Sample data for concrete evaluations -/

/-- A sample venue with both phone and address present. -/
def sample_bar_a : Bar :=
  ⟨"Bar A", ⟨mkRat 1 1, mkRat 2 1⟩, "123 456", "Main Street 1", mkRat 4 1⟩

/-- A sample venue with an empty display phone. -/
def sample_bar_b : Bar :=
  ⟨"Bar B", ⟨mkRat 3 1, mkRat 4 1⟩, "", "Harbour Road 2", mkRat 9 2⟩

/-- Number of decimal points in a string. -/
def dotCount (s : String) : ℕ := s.data.count '.'

/-! ## Helper lemmas -/

lemma string_data_append (s t : String) : (s ++ t).data = s.data ++ t.data := by
  obtain ⟨a⟩ := s
  obtain ⟨b⟩ := t
  rfl

lemma pyStartswith_bar (d : String) : pyStartswith ("bar_" ++ d) "bar_" = true := by
  obtain ⟨l⟩ := d
  rfl

lemma mk_drop4_bar (d : String) : String.mk (("bar_" ++ d).data.drop 4) = d := by
  obtain ⟨l⟩ := d
  rfl

lemma pyIndex_nonneg {α : Type} (l : List α) (i : ℤ) (h : 0 ≤ i) :
    pyIndex l i = l.get? i.toNat := by
  simp [pyIndex, not_lt.mpr h, h]

lemma get?_length_tail {α : Type} : ∀ (a : α) (t : List α),
    (a :: t).get? t.length = (a :: t).getLast?
  | _, [] => rfl
  | a, b :: t => by
    have ih := get?_length_tail b t
    rw [List.getLast?_cons_cons, ← ih]
    rfl

lemma pyIndex_neg_one {α : Type} (l : List α) : pyIndex l (-1) = l.getLast? := by
  rcases l with _ | ⟨a, t⟩
  · rfl
  · have h1 : ((-1 : ℤ)) < 0 := by norm_num
    have h2 : (0:ℤ) ≤ -1 + ((a :: t).length : ℤ) := by
      simp only [List.length_cons]
      push_cast
      omega
    have h3 : ((-1 : ℤ) + ((a :: t).length : ℤ)).toNat = t.length := by
      simp only [List.length_cons]
      omega
    simp only [pyIndex, if_pos h1, if_pos h2, h3]
    exact get?_length_tail a t

lemma get?_none_of_le {α : Type} : ∀ (l : List α) (n : ℕ), l.length ≤ n → l.get? n = none := by
  intro l
  induction l with
  | nil => intro n _; rfl
  | cons a t ih =>
    intro n h
    cases n with
    | zero => simp at h
    | succ m => exact ih m (by simpa using h)

lemma on_callback_query_run_some (ft : Bool) (bars : List Bar) (url : String)
    (kb : List (List InlineButton)) (d : String) (n : ℤ) (bar : Bar)
    (hd : pythonInt d = some n) (hi : pyIndex bars (n - 1) = some bar) :
    on_callback_query ⟨some ft, some bars, some url, some kb⟩ ("bar_" ++ d) =
      (⟨some false, some bars, some url, some kb⟩,
       (if ft then [] else resend_sends url kb) ++ detail_sends bar, none) := by
  cases ft <;>
    simp only [on_callback_query, pyStartswith_bar, if_true, mk_drop4_bar, hd, hi,
      Bool.false_eq_true, if_false, List.nil_append]

lemma on_callback_query_run_none (ft : Bool) (bars : List Bar) (url : String)
    (kb : List (List InlineButton)) (d : String) (n : ℤ)
    (hd : pythonInt d = some n) (hi : pyIndex bars (n - 1) = none) :
    on_callback_query ⟨some ft, some bars, some url, some kb⟩ ("bar_" ++ d) =
      (⟨some false, some bars, some url, some kb⟩,
       (if ft then [] else resend_sends url kb), some PyError.indexError) := by
  cases ft <;>
    simp only [on_callback_query, pyStartswith_bar, if_true, mk_drop4_bar, hd, hi,
      Bool.false_eq_true, if_false, List.nil_append]

lemma on_callback_query_run_badint (ft : Bool) (bars : List Bar) (url : String)
    (kb : List (List InlineButton)) (d : String)
    (hd : pythonInt d = none) :
    on_callback_query ⟨some ft, some bars, some url, some kb⟩ ("bar_" ++ d) =
      (⟨some false, some bars, some url, some kb⟩,
       (if ft then [] else resend_sends url kb), some PyError.valueError) := by
  cases ft <;>
    simp only [on_callback_query, pyStartswith_bar, if_true, mk_drop4_bar, hd,
      Bool.false_eq_true, if_false, List.nil_append]

lemma on_callback_query_not_bar (s : SessionState) (q : String)
    (h : pyStartswith q "bar_" = false) :
    on_callback_query s q = (s, [], none) := by
  simp [on_callback_query, h]

lemma natDigitsAux_lt (fuel : ℕ) : ∀ (n : ℕ), ∀ d ∈ natDigitsAux fuel n, d < 10 := by
  induction fuel with
  | zero => intro n d hd; simp [natDigitsAux] at hd
  | succ f ih =>
    intro n d hd
    unfold natDigitsAux at hd
    by_cases hn : n = 0
    · simp [hn] at hd
    · rw [if_neg hn] at hd
      rcases List.mem_cons.mp hd with h | h
      · rw [h]; exact Nat.mod_lt _ (by norm_num)
      · exact ih _ d h

lemma natDigitChar_ne_dot (d : ℕ) (h : d < 10) : natDigitChar d ≠ '.' := by
  interval_cases d <;> decide

lemma natDigitChar_isDigit (d : ℕ) (h : d < 10) : (natDigitChar d).isDigit = true := by
  interval_cases d <;> decide

lemma natToString_no_dot (n : ℕ) : '.' ∉ (natToString n).data := by
  unfold natToString
  by_cases hn : n = 0
  · rw [if_pos hn]; decide
  · rw [if_neg hn]
    intro hmem
    simp only [String.mk] at hmem
    rcases List.mem_map.mp hmem with ⟨d, hd, hchar⟩
    have : d < 10 := natDigitsAux_lt n n d (List.mem_reverse.mp hd)
    exact natDigitChar_ne_dot d this hchar

lemma build_menu_fst_get? (bars : List Bar) : ∀ (s i : ℕ),
    (build_menu s bars).1.get? i =
      (bars.get? i).map (fun b => [⟨bar_text (s + i) b, "bar_" ++ natToString (s + i)⟩]) := by
  induction bars with
  | nil => intro s i; simp [build_menu]
  | cons b rest ih =>
    intro s i
    cases i with
    | zero => simp [build_menu]
    | succ j =>
      simp only [build_menu, List.get?]
      rw [ih (s + 1) j]
      have : s + 1 + j = s + (j + 1) := by omega
      rw [this]

lemma build_menu_snd_get? (bars : List Bar) : ∀ (s i : ℕ),
    (build_menu s bars).2.get? i = (bars.get? i).map (fun b => b.coordinates) := by
  induction bars with
  | nil => intro s i; simp [build_menu]
  | cons b rest ih =>
    intro s i
    cases i with
    | zero => simp [build_menu]
    | succ j =>
      simp only [build_menu, List.get?]
      exact ih (s + 1) j

lemma create_map_markers_aux_get? (ms : List Coordinates) : ∀ (s i : ℕ),
    (create_map_markers_aux s ms).get? i =
      (ms.get? i).map (fun m => ⟨m.latitude, m.longitude, natToString (s + i)⟩) := by
  induction ms with
  | nil => intro s i; simp [create_map_markers_aux]
  | cons m rest ih =>
    intro s i
    cases i with
    | zero => simp [create_map_markers_aux]
    | succ j =>
      simp only [create_map_markers_aux, List.get?]
      rw [ih (s + 1) j]
      have : s + 1 + j = s + (j + 1) := by omega
      rw [this]

lemma build_menu_fst_length (bars : List Bar) : ∀ s : ℕ,
    (build_menu s bars).1.length = bars.length := by
  induction bars with
  | nil => intro s; rfl
  | cons b rest ih => intro s; simp [build_menu, ih (s + 1)]

lemma build_menu_snd_length (bars : List Bar) : ∀ s : ℕ,
    (build_menu s bars).2.length = bars.length := by
  induction bars with
  | nil => intro s; rfl
  | cons b rest ih => intro s; simp [build_menu, ih (s + 1)]

lemma create_map_markers_aux_length (ms : List Coordinates) : ∀ s : ℕ,
    (create_map_markers_aux s ms).length = ms.length := by
  induction ms with
  | nil => intro s; rfl
  | cons m rest ih => intro s; simp [create_map_markers_aux, ih (s + 1)]

/-! ## Claims -/

/-- C1 (counterexample): with a stored list of two venues, the token
`bar_0` — whose selection number 0 lies outside 1..N — is NOT rejected as
a stale-selection error: on_callback_query raises no error and resolves
the LAST venue of the list through Python's negative indexing. -/
theorem c1_bar_zero_counterexample :
    on_callback_query
        ⟨some true, some [sample_bar_a, sample_bar_b], some "url", some []⟩ "bar_0" =
      (⟨some false, some [sample_bar_a, sample_bar_b], some "url", some []⟩,
       detail_sends sample_bar_b, none) := by
  decide

/-- C1 (amended): a selection token `bar_k` with 1 ≤ k ≤ N resolves
exactly the venue at 0-based index k−1; a token with k > N raises an
uncaught IndexError rather than producing a detected stale-selection
report; tokens with k ≤ 0 are not rejected (see the counterexample: they
wrap around through Python negative indexing). -/
theorem c1_selection_token_resolution (ft : Bool) (bars : List Bar) (url : String)
    (kb : List (List InlineButton)) (d : String) (n : ℤ) (bar : Bar) :
    (pythonInt d = some n → 1 ≤ n → bars.get? (n - 1).toNat = some bar →
      on_callback_query ⟨some ft, some bars, some url, some kb⟩ ("bar_" ++ d) =
        (⟨some false, some bars, some url, some kb⟩,
         (if ft then [] else resend_sends url kb) ++ detail_sends bar, none))
    ∧ (pythonInt d = some n → (bars.length : ℤ) < n →
      on_callback_query ⟨some ft, some bars, some url, some kb⟩ ("bar_" ++ d) =
        (⟨some false, some bars, some url, some kb⟩,
         (if ft then [] else resend_sends url kb), some PyError.indexError)) := by
  constructor
  · intro hd hn hb
    refine on_callback_query_run_some ft bars url kb d n bar hd ?_
    rw [pyIndex_nonneg bars (n - 1) (by omega)]
    exact hb
  · intro hd hn
    refine on_callback_query_run_none ft bars url kb d n hd ?_
    rw [pyIndex_nonneg bars (n - 1) (by omega)]
    exact get?_none_of_le bars (n - 1).toNat (by omega)

/-- C1 (witness): concrete instantiation — token `bar_2` on a two-venue
list resolves the second venue, token `bar_3` raises IndexError. -/
theorem c1_selection_token_resolution_witness :
    (pythonInt "2" = some 2 ∧ (1:ℤ) ≤ 2
      ∧ [sample_bar_a, sample_bar_b].get? ((2:ℤ) - 1).toNat = some sample_bar_b
      ∧ on_callback_query
            ⟨some true, some [sample_bar_a, sample_bar_b], some "url", some []⟩ ("bar_" ++ "2") =
          (⟨some false, some [sample_bar_a, sample_bar_b], some "url", some []⟩,
           (if true then [] else resend_sends "url" []) ++ detail_sends sample_bar_b, none))
    ∧ (pythonInt "3" = some 3 ∧ (([sample_bar_a, sample_bar_b].length : ℤ)) < 3
      ∧ on_callback_query
            ⟨some true, some [sample_bar_a, sample_bar_b], some "url", some []⟩ ("bar_" ++ "3") =
          (⟨some false, some [sample_bar_a, sample_bar_b], some "url", some []⟩,
           (if true then [] else resend_sends "url" []), some PyError.indexError)) :=
  ⟨⟨by decide, by decide, by decide,
    (c1_selection_token_resolution true [sample_bar_a, sample_bar_b] "url" [] "2" 2
        sample_bar_b).1 (by decide) (by decide) (by decide)⟩,
   ⟨by decide, by decide,
    (c1_selection_token_resolution true [sample_bar_a, sample_bar_b] "url" [] "3" 3
        sample_bar_b).2 (by decide) (by decide)⟩⟩

/-- C2: a location search leaves the first-view flag true; a selection
processed with the flag true sends only the venue details (no map photo,
no menu prompt) and drops the flag to false; a selection processed with
the flag false re-sends the stored map photo and the stored inline menu
before the details, the flag staying false. -/
theorem c2_first_view_flag :
    (∀ (s : SessionState) (bars : List Bar) (lat lon : ℚ),
        (on_location s bars lat lon).1.first_time = some true)
    ∧ (∀ (bars : List Bar) (url : String) (kb : List (List InlineButton))
          (d : String) (n : ℤ) (bar : Bar),
        pythonInt d = some n → pyIndex bars (n - 1) = some bar →
        on_callback_query ⟨some true, some bars, some url, some kb⟩ ("bar_" ++ d) =
          (⟨some false, some bars, some url, some kb⟩, detail_sends bar, none))
    ∧ (∀ (bars : List Bar) (url : String) (kb : List (List InlineButton))
          (d : String) (n : ℤ) (bar : Bar),
        pythonInt d = some n → pyIndex bars (n - 1) = some bar →
        on_callback_query ⟨some false, some bars, some url, some kb⟩ ("bar_" ++ d) =
          (⟨some false, some bars, some url, some kb⟩,
           resend_sends url kb ++ detail_sends bar, none)) := by
  refine ⟨fun s bars lat lon => rfl, fun bars url kb d n bar hd hi => ?_, fun bars url kb d n bar hd hi => ?_⟩
  · have h := on_callback_query_run_some true bars url kb d n bar hd hi
    simpa using h
  · have h := on_callback_query_run_some false bars url kb d n bar hd hi
    simpa using h

/-- C2 (witness): concrete instantiation of the selection parts on a
one-venue list with token `bar_1`. -/
theorem c2_first_view_flag_witness :
    (pythonInt "1" = some 1 ∧ pyIndex [sample_bar_a] ((1:ℤ) - 1) = some sample_bar_a)
    ∧ on_callback_query ⟨some true, some [sample_bar_a], some "url", some []⟩ ("bar_" ++ "1") =
        (⟨some false, some [sample_bar_a], some "url", some []⟩, detail_sends sample_bar_a, none)
    ∧ on_callback_query ⟨some false, some [sample_bar_a], some "url", some []⟩ ("bar_" ++ "1") =
        (⟨some false, some [sample_bar_a], some "url", some []⟩,
         resend_sends "url" [] ++ detail_sends sample_bar_a, none) :=
  ⟨⟨by decide, by decide⟩,
   c2_first_view_flag.2.1 [sample_bar_a] "url" [] "1" 1 sample_bar_a (by decide) (by decide),
   c2_first_view_flag.2.2 [sample_bar_a] "url" [] "1" 1 sample_bar_a (by decide) (by decide)⟩

/-- C3: for a nonnegative rating, the formatted rating string contains no
decimal point when the rating is integral, and splits as `a ++ ['.', c]`
— a dot-free integer part followed by exactly one digit after the single
decimal point — when it is not. -/
theorem c3_rating_format (r : ℚ) (h : 0 ≤ r.num) :
    (r.den = 1 → dotCount (format_rating r) = 0)
    ∧ (r.den ≠ 1 → ∃ a c, (format_rating r).data = a ++ ['.', c]
        ∧ '.' ∉ a ∧ c.isDigit = true) := by
  constructor
  · intro h1
    unfold dotCount format_rating
    rw [if_pos h1]
    exact List.count_eq_zero.mpr (natToString_no_dot _)
  · intro h1
    unfold format_rating
    rw [if_neg h1]
    refine ⟨(natToString (((20 * r.num + (r.den : ℤ)) / (2 * (r.den : ℤ))).toNat / 10)).data,
      natDigitChar (((20 * r.num + (r.den : ℤ)) / (2 * (r.den : ℤ))).toNat % 10),
      ?_, natToString_no_dot _, natDigitChar_isDigit _ (Nat.mod_lt _ (by norm_num))⟩
    rw [string_data_append, string_data_append]
    simp

/-- C3 (witness): rating 4 renders as "4" with no decimal point; rating
9/2 renders with a single decimal point followed by one digit. -/
theorem c3_rating_format_witness :
    (0 ≤ (mkRat 4 1).num ∧ (mkRat 4 1).den = 1 ∧ dotCount (format_rating (mkRat 4 1)) = 0)
    ∧ (0 ≤ (mkRat 9 2).num ∧ (mkRat 9 2).den ≠ 1
       ∧ ∃ a c, (format_rating (mkRat 9 2)).data = a ++ ['.', c] ∧ '.' ∉ a ∧ c.isDigit = true) :=
  ⟨⟨by decide, by decide, (c3_rating_format (mkRat 4 1) (by decide)).1 (by decide)⟩,
   ⟨by decide, by decide, (c3_rating_format (mkRat 9 2) (by decide)).2 (by decide)⟩⟩

/-- C4 (counterexample): the payload "bar_abc" is NOT silently ignored:
with the first-view flag false the handler first re-sends the map and the
menu (outbound messages) and then int("abc") raises ValueError. -/
theorem c4_bar_abc_counterexample :
    on_callback_query
        ⟨some false, some [sample_bar_a], some "url", some [[⟨"x", "bar_1"⟩]]⟩ "bar_abc" =
      (⟨some false, some [sample_bar_a], some "url", some [[⟨"x", "bar_1"⟩]]⟩,
       resend_sends "url" [[⟨"x", "bar_1"⟩]], some PyError.valueError) := by
  decide

/-- C4 (amended): payloads that do not start with "bar_" are silently
ignored (no send, no error); a payload starting with "bar_" whose suffix
is not a valid integer literal raises ValueError instead of being
ignored (after the map/menu re-send when the first-view flag is false). -/
theorem c4_malformed_tokens (s : SessionState) (q : String) (ft : Bool)
    (bars : List Bar) (url : String) (kb : List (List InlineButton)) (d : String) :
    (pyStartswith q "bar_" = false → on_callback_query s q = (s, [], none))
    ∧ (pythonInt d = none →
        on_callback_query ⟨some ft, some bars, some url, some kb⟩ ("bar_" ++ d) =
          (⟨some false, some bars, some url, some kb⟩,
           (if ft then [] else resend_sends url kb), some PyError.valueError)) :=
  ⟨on_callback_query_not_bar s q, on_callback_query_run_badint ft bars url kb d⟩

/-- C4 (witness): "xyz" is ignored with no send and no error; the suffix
"abc" fails int() and raises ValueError. -/
theorem c4_malformed_tokens_witness :
    (pyStartswith "xyz" "bar_" = false
      ∧ on_callback_query ⟨some true, some [sample_bar_a], some "url", some []⟩ "xyz" =
          (⟨some true, some [sample_bar_a], some "url", some []⟩, [], none))
    ∧ (pythonInt "abc" = none
      ∧ on_callback_query ⟨some true, some [sample_bar_a], some "url", some []⟩ ("bar_" ++ "abc") =
          (⟨some false, some [sample_bar_a], some "url", some []⟩,
           (if true then [] else resend_sends "url" []), some PyError.valueError)) :=
  ⟨⟨by decide,
    (c4_malformed_tokens ⟨some true, some [sample_bar_a], some "url", some []⟩ "xyz" true
        [sample_bar_a] "url" [] "abc").1 (by decide)⟩,
   ⟨by decide,
    (c4_malformed_tokens ⟨some true, some [sample_bar_a], some "url", some []⟩ "xyz" true
        [sample_bar_a] "url" [] "abc").2 (by decide)⟩⟩

/-- C5: the detail message always opens with the venue name emphasised in
asterisks; the telephone line appears exactly when the display phone is
non-empty and the address suffix exactly when the display address is
non-empty, absent fields leaving no trace (the four cases below cover
all combinations). -/
theorem c5_detail_message (name phone addr : String) (co : Coordinates) (r : ℚ) :
    (phone = "" → addr = "" →
      build_extra_info ⟨name, co, phone, addr, r⟩ = "*" ++ name ++ "*")
    ∧ (phone ≠ "" → addr = "" →
      build_extra_info ⟨name, co, phone, addr, r⟩ =
        "*" ++ name ++ "*" ++ "\n:telephone: " ++ phone ++ "\n")
    ∧ (phone = "" → addr ≠ "" →
      build_extra_info ⟨name, co, phone, addr, r⟩ = "*" ++ name ++ "*" ++ "\n" ++ addr)
    ∧ (phone ≠ "" → addr ≠ "" →
      build_extra_info ⟨name, co, phone, addr, r⟩ =
        "*" ++ name ++ "*" ++ "\n:telephone: " ++ phone ++ "\n" ++ "\n" ++ addr) := by
  refine ⟨fun h1 h2 => ?_, fun h1 h2 => ?_, fun h1 h2 => ?_, fun h1 h2 => ?_⟩ <;>
    simp [build_extra_info, h1, h2]

/-- C5 (witness): a venue with a non-empty phone and empty address gets
the phone line and no address suffix; the converse venue gets the address
and no phone line. -/
theorem c5_detail_message_witness :
    ("555" ≠ "" ∧ ("" : String) = ""
      ∧ build_extra_info ⟨"N", ⟨mkRat 0 1, mkRat 0 1⟩, "555", "", mkRat 4 1⟩ =
          "*" ++ "N" ++ "*" ++ "\n:telephone: " ++ "555" ++ "\n")
    ∧ (("" : String) = "" ∧ "Street 7" ≠ ""
      ∧ build_extra_info ⟨"N", ⟨mkRat 0 1, mkRat 0 1⟩, "", "Street 7", mkRat 4 1⟩ =
          "*" ++ "N" ++ "*" ++ "\n" ++ "Street 7") :=
  ⟨⟨by decide, rfl,
    (c5_detail_message "N" "555" "" ⟨mkRat 0 1, mkRat 0 1⟩ (mkRat 4 1)).2.1
      (by decide) rfl⟩,
   ⟨rfl, by decide,
    (c5_detail_message "N" "" "Street 7" ⟨mkRat 0 1, mkRat 0 1⟩ (mkRat 4 1)).2.2.1
      rfl (by decide)⟩⟩

/-- C6: the inline menu rows, the marker coordinate list and the labelled
map markers are all in 1:1 correspondence with the venue list: at every
0-based position i the menu row holds the single button for venue i with
callback data encoding the 1-based position 1+i, the coordinate list
holds venue i's coordinates, and the map marker sits at those coordinates
labelled with the decimal string of 1+i. -/
theorem c6_menu_marker_correspondence (bars : List Bar) :
    (build_menu 1 bars).1.length = bars.length
    ∧ (build_menu 1 bars).2.length = bars.length
    ∧ (create_map_markers (build_menu 1 bars).2).length = bars.length
    ∧ ∀ i : ℕ,
        (build_menu 1 bars).1.get? i =
          (bars.get? i).map (fun b => [⟨bar_text (1 + i) b, "bar_" ++ natToString (1 + i)⟩])
        ∧ (build_menu 1 bars).2.get? i = (bars.get? i).map (fun b => b.coordinates)
        ∧ (create_map_markers (build_menu 1 bars).2).get? i =
            (bars.get? i).map
              (fun b => ⟨b.coordinates.latitude, b.coordinates.longitude, natToString (1 + i)⟩) := by
  refine ⟨build_menu_fst_length bars 1, build_menu_snd_length bars 1, ?_, fun i => ⟨?_, ?_, ?_⟩⟩
  · unfold create_map_markers
    rw [create_map_markers_aux_length, build_menu_snd_length]
  · exact build_menu_fst_get? bars 1 i
  · exact build_menu_snd_get? bars 1 i
  · unfold create_map_markers
    rw [create_map_markers_aux_get?, build_menu_snd_get?]
    rcases bars.get? i with _ | b <;> rfl

/-- C7: the Command Handler never mutates the session state; "/start"
sends exactly the welcome message with the location-request keyboard; but
"/help" sends NOTHING — line 210 calls sendMessage without await, so the
coroutine is created and discarded and no help message is dispatched,
contradicting the claim that the fixed help message is sent. -/
theorem c7_command_handler (s : SessionState) (t : String) :
    (on_text s t).1 = s
    ∧ on_text s "/start" = (s, [Send.message WELCOME_MESSAGE (some main_keyboard)])
    ∧ on_text s "/help" = (s, []) := by
  have h1 : pyNormalize "/start" = "/start" := by decide
  have h2 : pyNormalize "/help" = "/help" := by decide
  have h3 : ("/help" : String) ≠ "/start" := by decide
  refine ⟨?_, ?_, ?_⟩
  · unfold on_text
    by_cases ha : pyNormalize t = "/start"
    · simp [ha]
    · by_cases hb : pyNormalize t = "/help" <;> simp [ha, hb]
  · simp [on_text, h1]
  · simp [on_text, h2, h3]

/-- C8: with a non-empty stored venue list, the token `bar_0` is not
rejected: the computed index is -1, Python's negative indexing resolves
the LAST venue, and its details (and location pin) are sent without
error. -/
theorem c8_bar_zero_wraparound (ft : Bool) (bars : List Bar) (url : String)
    (kb : List (List InlineButton)) (b : Bar) (h : bars.getLast? = some b) :
    on_callback_query ⟨some ft, some bars, some url, some kb⟩ "bar_0" =
      (⟨some false, some bars, some url, some kb⟩,
       (if ft then [] else resend_sends url kb) ++ detail_sends b, none) := by
  have e : ("bar_" ++ "0" : String) = "bar_0" := rfl
  rw [← e]
  refine on_callback_query_run_some ft bars url kb "0" 0 b (by decide) ?_
  rw [show (0:ℤ) - 1 = -1 from rfl, pyIndex_neg_one]
  exact h

/-- C8 (witness): `bar_0` on the two-venue sample list resolves the
second (last) venue. -/
theorem c8_bar_zero_wraparound_witness :
    [sample_bar_a, sample_bar_b].getLast? = some sample_bar_b
    ∧ on_callback_query
          ⟨some false, some [sample_bar_a, sample_bar_b], some "url", some []⟩ "bar_0" =
        (⟨some false, some [sample_bar_a, sample_bar_b], some "url", some []⟩,
         (if false then [] else resend_sends "url" []) ++ detail_sends sample_bar_b, none) :=
  ⟨by decide,
   c8_bar_zero_wraparound false [sample_bar_a, sample_bar_b] "url" [] sample_bar_b (by decide)⟩

/-- C9: in a session where no location message was ever processed, every
selection callback whose payload starts with "bar_" raises
AttributeError when reading the never-assigned _first_time attribute —
it is neither silently ignored nor reported as a stale selection. -/
theorem c9_missing_attributes (q : String) (h : pyStartswith q "bar_" = true) :
    on_callback_query initial_state q = (initial_state, [], some PyError.attributeError) := by
  simp [on_callback_query, h, initial_state]

/-- C9 (witness): the callback `bar_1` on a fresh session raises
AttributeError. -/
theorem c9_missing_attributes_witness :
    pyStartswith "bar_1" "bar_" = true
    ∧ on_callback_query initial_state "bar_1" =
        (initial_state, [], some PyError.attributeError) :=
  ⟨by decide, c9_missing_attributes "bar_1" (by decide)⟩

/-- C10: text command matching happens on strip().lower() of the input,
so any input normalising to "/start" is handled exactly like the literal
"/start", and likewise for "/help". -/
theorem c10_command_normalization (s : SessionState) (t u : String) :
    (pyNormalize t = "/start" → on_text s t = on_text s "/start")
    ∧ (pyNormalize u = "/help" → on_text s u = on_text s "/help") := by
  have h1 : pyNormalize "/start" = "/start" := by decide
  have h2 : pyNormalize "/help" = "/help" := by decide
  constructor
  · intro h
    simp [on_text, h, h1]
  · intro h
    simp [on_text, h, h2]

/-- C10 (witness): " /START " behaves exactly like "/start" and
" /Help " exactly like "/help". -/
theorem c10_command_normalization_witness :
    (pyNormalize " /START " = "/start"
      ∧ on_text initial_state " /START " = on_text initial_state "/start")
    ∧ (pyNormalize " /Help " = "/help"
      ∧ on_text initial_state " /Help " = on_text initial_state "/help") :=
  ⟨⟨by decide,
    (c10_command_normalization initial_state " /START " " /Help ").1 (by decide)⟩,
   ⟨by decide,
    (c10_command_normalization initial_state " /START " " /Help ").2 (by decide)⟩⟩
